import Mathlib

/-!
Verification of the orbital-position fallback engine of
`solsys-starter/server/main.py`.

The embedding models:
* the static registry `CELESTIAL_OBJECTS` (orbital elements per body);
* the step-string parsing of `generate_orbital_positions` /
  `generate_moon_positions` (`"<number>h"` / `"<number>d"` / default 6 h);
* the sampling loop (start .. stop inclusive, 1000-sample cap);
* the Kepler pipeline (5-iteration fixed point, true anomaly via `atan2`,
  radius, inclination rotation, radial/tangential velocity);
* the moon composition onto the parent series at exactly matching
  timestamps;
* the id expansion of the `/api/ephem` endpoint (Sun prepended, moons of
  requested planets appended).

Modelling conventions:
* instants are rationals, in hours since the epoch 2000-01-01T00:00
  (`datetime` arithmetic at the step sizes involved is exact, and
  `datetime.isoformat` is injective, so ISO-string equality of two
  generated timestamps is instant equality);
* `datetime.fromisoformat` of the `start`/`stop` strings is supplied to
  the generator as an already-parsed `Option ℚ` alongside the raw `start`
  string (`none` models the `ValueError` of an unparsable instant); the
  raw `start` string is what the exception fallback emits as timestamp;
* real-valued machine floats are modelled as real numbers; a float
  division by zero (`ZeroDivisionError`, a raised exception) is modelled
  by an explicit check of the single zero divisor that occurs,
  `elem["period"]`; the `math.isfinite` guard is abstracted as a boolean
  predicate `isFin` on ℝ, since ℝ has no non-finite values — the
  substitution behaviour on a failed guard is taken from the source;
* Python exceptions are `Except.error`; the `try/except` blocks of the
  source catch them exactly where the source does.
-/

/-- The `type` field of a registry entry. -/
inductive BodyType where
  | star
  | planet
  | dwarf_planet
  | moon
deriving DecidableEq

/-- One entry of `CELESTIAL_OBJECTS` (presentation-only fields —
texture, color, atmosphere, rings — are omitted; they are never read by
the generation code). -/
structure CelestialBody where
  name : String
  btype : BodyType
  parent : Option String := none
  a : ℚ
  e : ℚ
  i : ℚ
  period : ℚ
  mass : ℚ
  radius : ℚ
  moons : List String := []
deriving DecidableEq

/-- A sample timestamp: either the ISO string of a generated instant
(identified with the instant itself, in hours since the epoch), or the
raw `start` string echoed by the exception fallback. -/
inductive Timestamp where
  | iso (t : ℚ)
  | raw (s : String)
deriving DecidableEq

/-- One `{"t": ..., "r": [...], "v": [...]}` sample. -/
structure StateVector where
  t : Timestamp
  r : ℝ × ℝ × ℝ
  v : ℝ × ℝ × ℝ

def sun : CelestialBody :=
  { name := "Sun", btype := .star, a := 0.0, e := 0.0, i := 0.0,
    period := 0.0, mass := 1.989e30, radius := 696340.0 }

def mercury : CelestialBody :=
  { name := "Mercury", btype := .planet, a := 57909050.0, e := 0.2056,
    i := 7.00, period := 87.97, mass := 3.301e23, radius := 2439.7,
    moons := [] }

def venus : CelestialBody :=
  { name := "Venus", btype := .planet, a := 108208000.0, e := 0.0067,
    i := 3.39, period := 224.70, mass := 4.867e24, radius := 6051.8,
    moons := [] }

def earth : CelestialBody :=
  { name := "Earth", btype := .planet, a := 149597870.7, e := 0.0167,
    i := 0.0, period := 365.25, mass := 5.972e24, radius := 6371.0,
    moons := ["301"] }

def moonBody : CelestialBody :=
  { name := "Moon", btype := .moon, parent := some "399", a := 384400.0,
    e := 0.0549, i := 5.145, period := 27.32, mass := 7.342e22,
    radius := 1737.4 }

def mars : CelestialBody :=
  { name := "Mars", btype := .planet, a := 227939200.0, e := 0.0935,
    i := 1.85, period := 686.98, mass := 6.417e23, radius := 3389.5,
    moons := ["401", "402"] }

def phobos : CelestialBody :=
  { name := "Phobos", btype := .moon, parent := some "499", a := 421800.0,
    e := 0.0151, i := 1.075, period := 0.3189, mass := 1.0659e16,
    radius := 11.267 }

def deimos : CelestialBody :=
  { name := "Deimos", btype := .moon, parent := some "499", a := 23463.0,
    e := 0.0002, i := 0.93, period := 1.2624, mass := 1.4762e15,
    radius := 6.2 }

def jupiter : CelestialBody :=
  { name := "Jupiter", btype := .planet, a := 778299000.0, e := 0.0489,
    i := 1.31, period := 4332.59, mass := 1.898e27, radius := 69911.0,
    moons := ["501", "502", "503", "504"] }

def io : CelestialBody :=
  { name := "Io", btype := .moon, parent := some "599", a := 421800.0,
    e := 0.0041, i := 0.036, period := 1.7691, mass := 8.932e22,
    radius := 1821.6 }

def europa : CelestialBody :=
  { name := "Europa", btype := .moon, parent := some "599", a := 671100.0,
    e := 0.0094, i := 0.466, period := 3.5512, mass := 4.800e22,
    radius := 1560.8 }

def ganymede : CelestialBody :=
  { name := "Ganymede", btype := .moon, parent := some "599",
    a := 1070400.0, e := 0.0013, i := 0.177, period := 7.1546,
    mass := 1.482e23, radius := 1560.8 }

def callisto : CelestialBody :=
  { name := "Callisto", btype := .moon, parent := some "599",
    a := 1882700.0, e := 0.0074, i := 0.192, period := 16.6890,
    mass := 1.076e23, radius := 2410.3 }

def saturn : CelestialBody :=
  { name := "Saturn", btype := .planet, a := 1426666000.0, e := 0.0565,
    i := 2.49, period := 10759.22, mass := 5.683e26, radius := 58232.0,
    moons := ["601", "602", "603", "604", "605", "606", "607", "608"] }

def titan : CelestialBody :=
  { name := "Titan", btype := .moon, parent := some "699", a := 1221870.0,
    e := 0.0288, i := 0.348, period := 15.9454, mass := 1.3452e23,
    radius := 2574.7 }

def enceladus : CelestialBody :=
  { name := "Enceladus", btype := .moon, parent := some "699",
    a := 238020.0, e := 0.0047, i := 0.009, period := 1.3702,
    mass := 1.08e20, radius := 252.1 }

def uranus : CelestialBody :=
  { name := "Uranus", btype := .planet, a := 2870658000.0, e := 0.0457,
    i := 0.77, period := 30688.5, mass := 8.681e25, radius := 25362.0,
    moons := ["701", "702", "703", "704", "705"] }

def neptune : CelestialBody :=
  { name := "Neptune", btype := .planet, a := 4498396000.0, e := 0.0113,
    i := 1.77, period := 60182.0, mass := 1.024e26, radius := 24622.0,
    moons := ["801"] }

def triton : CelestialBody :=
  { name := "Triton", btype := .moon, parent := some "899", a := 354759.0,
    e := 0.000016, i := 156.885, period := -5.8769, mass := 1.4762e15,
    radius := 1353.4 }

def pluto : CelestialBody :=
  { name := "Pluto", btype := .dwarf_planet, a := 5906440628.0,
    e := 0.2488, i := 17.16, period := 90520.0, mass := 1.303e22,
    radius := 1188.3, moons := ["901"] }

def charon : CelestialBody :=
  { name := "Charon", btype := .moon, parent := some "999", a := 19591.0,
    e := 0.0002, i := 0.080, period := 6.3872, mass := 1.586e21,
    radius := 606.0 }

/-- The registry, as an ordered association list (dict order of the
source). -/
def CELESTIAL_OBJECTS : List (String × CelestialBody) :=
  [("10", sun), ("199", mercury), ("299", venus), ("399", earth),
   ("301", moonBody), ("499", mars), ("401", phobos), ("402", deimos),
   ("599", jupiter), ("501", io), ("502", europa), ("503", ganymede),
   ("504", callisto), ("699", saturn), ("601", titan), ("602", enceladus),
   ("799", uranus), ("899", neptune), ("801", triton), ("999", pluto),
   ("901", charon)]

/-- Python `str.strip()` (whitespace from both ends). -/
def pyStrip (s : String) : String :=
  ⟨((s.data.dropWhile Char.isWhitespace).reverse.dropWhile
      Char.isWhitespace).reverse⟩

/-- Python `c in s` for a single-character needle. -/
def pyContains (s : String) (c : Char) : Bool :=
  s.data.contains c

/-- Python `s.replace(c, "")` for a single-character needle: delete every
occurrence. -/
def removeChar (s : String) (c : Char) : String :=
  ⟨s.data.filter (fun x => x != c)⟩

/-- Value of a digit string, most significant first. -/
def digitsToNat (cs : List Char) : ℕ :=
  cs.foldl (fun acc c => 10 * acc + (c.toNat - 48)) 0

/-- Python `float(s)`, modelled on plain decimal literals: optional
surrounding whitespace, optional sign, digits with at most one decimal
point and at least one digit.  Scientific notation, `inf`/`nan` and
digit-group underscores are not modelled; `none` models the raised
`ValueError`. -/
def pyFloat? (s : String) : Option ℚ :=
  let cs := (pyStrip s).data
  let signed : Bool × List Char :=
    match cs with
    | '+' :: rest => (false, rest)
    | '-' :: rest => (true, rest)
    | rest => (false, rest)
  let intPart := signed.2.takeWhile Char.isDigit
  let rest := signed.2.dropWhile Char.isDigit
  match rest with
  | [] =>
    if intPart.isEmpty then none
    else some (if signed.1 then -(digitsToNat intPart : ℚ) else (digitsToNat intPart : ℚ))
  | '.' :: frac =>
    if frac.all Char.isDigit && (!intPart.isEmpty || !frac.isEmpty) then
      let v : ℚ := (digitsToNat intPart : ℚ) + (digitsToNat frac : ℚ) / 10 ^ frac.length
      some (if signed.1 then -v else v)
    else none
  | _ => none

/-- Step parsing of both generators (`main.py` lines 477-482 / 558-563):
`"h" in step` → hours, else `"d" in step` → days·24, else the 6-hour
default.  `none` models the `ValueError` that `float` raises when the
residue after deleting the letter is not numeric. -/
def parseStepHours (step : String) : Option ℚ :=
  if pyContains step 'h' then
    pyFloat? (pyStrip (removeChar step 'h'))
  else if pyContains step 'd' then
    (pyFloat? (pyStrip (removeChar step 'd'))).map (fun q => q * 24)
  else
    some 6

/-- `(current_time - datetime(2000, 1, 1)).total_seconds() / 86400`,
with `t` in hours since that epoch. -/
def days_since_epoch (t : ℚ) : ℚ := t / 24

/-- The `max_positions = 1000` performance cap. -/
def max_positions : ℕ := 1000

/-- The sample instants of the `while current_time <= stop_date and
position_count < max_positions` loop: `fuel` is the remaining count
budget. -/
def instantsAux (stop_t Δ : ℚ) : ℚ → ℕ → List ℚ
  | _, 0 => []
  | cur, fuel + 1 =>
    if cur ≤ stop_t then cur :: instantsAux stop_t Δ (cur + Δ) fuel else []

/-- All sample instants of a window. -/
def instants (start_t stop_t Δ : ℚ) : List ℚ :=
  instantsAux stop_t Δ start_t max_positions

/-- Python `math.atan2 y x` on reals: the argument of the complex number
`x + y·i`, in `(-π, π]`. -/
noncomputable def atan2 (y x : ℝ) : ℝ := Complex.arg ⟨x, y⟩

/-- The fixed-point iteration `E ← M + e·sin E` seeded with `E₀ = M`. -/
noncomputable def kepler_iterate (M e : ℝ) : ℕ → ℝ
  | 0 => M
  | n + 1 => M + e * Real.sin (kepler_iterate M e n)

/-- Eccentric anomaly after the fixed 5 iterations. -/
noncomputable def eccentric_anomaly (M e : ℝ) : ℝ := kepler_iterate M e 5

/-- `2·atan2(√(1+e)·sin(E/2), √(1−e)·cos(E/2))`. -/
noncomputable def true_anomaly_from (e E : ℝ) : ℝ :=
  2 * atan2 (Real.sqrt (1 + e) * Real.sin (E / 2))
            (Real.sqrt (1 - e) * Real.cos (E / 2))

/-- True anomaly from mean anomaly. -/
noncomputable def true_anomaly (M e : ℝ) : ℝ :=
  true_anomaly_from e (eccentric_anomaly M e)

/-- `r = a·(1 − e·cos E)`. -/
noncomputable def radius_from (a e E : ℝ) : ℝ := a * (1 - e * Real.cos E)

/-- `(days_since_epoch / elem["period"]) * 2 * math.pi`.  Only called
with `elem.period ≠ 0`; the `period = 0` float division raises and is
modelled at the call sites. -/
noncomputable def mean_anomaly (elem : CelestialBody) (t : ℚ) : ℝ :=
  ((days_since_epoch t : ℚ) : ℝ) / (elem.period : ℝ) * 2 * Real.pi

noncomputable def E_at (elem : CelestialBody) (t : ℚ) : ℝ :=
  eccentric_anomaly (mean_anomaly elem t) (elem.e : ℝ)

noncomputable def nu_at (elem : CelestialBody) (t : ℚ) : ℝ :=
  true_anomaly_from (elem.e : ℝ) (E_at elem t)

noncomputable def r_at (elem : CelestialBody) (t : ℚ) : ℝ :=
  radius_from (elem.a : ℝ) (elem.e : ℝ) (E_at elem t)

/-- `x = r·cos ν` in the orbital plane. -/
noncomputable def x_at (elem : CelestialBody) (t : ℚ) : ℝ :=
  r_at elem t * Real.cos (nu_at elem t)

/-- `y = r·sin ν` in the orbital plane. -/
noncomputable def y_at (elem : CelestialBody) (t : ℚ) : ℝ :=
  r_at elem t * Real.sin (nu_at elem t)

/-- `math.radians(elem["i"])`. -/
noncomputable def inclination_rad (elem : CelestialBody) : ℝ :=
  (elem.i : ℝ) * Real.pi / 180

/-- `y_inclined = y·cos i − z·sin i` with `z = 0`, exactly as written. -/
noncomputable def y_inclined_at (elem : CelestialBody) (t : ℚ) : ℝ :=
  y_at elem t * Real.cos (inclination_rad elem) -
    0 * Real.sin (inclination_rad elem)

/-- `z_inclined = y·sin i + z·cos i` with `z = 0`, exactly as written. -/
noncomputable def z_inclined_at (elem : CelestialBody) (t : ℚ) : ℝ :=
  y_at elem t * Real.sin (inclination_rad elem) +
    0 * Real.cos (inclination_rad elem)

/-- `mu = 1.32712440018e11` (km³/s²). -/
noncomputable def mu : ℝ := 1.32712440018e11

/-- `v_r = sqrt(mu/a)·e·sin ν`. -/
noncomputable def v_r_at (elem : CelestialBody) (t : ℚ) : ℝ :=
  Real.sqrt (mu / (elem.a : ℝ)) * (elem.e : ℝ) * Real.sin (nu_at elem t)

/-- `v_t = sqrt(mu/a)·(1 + e·cos ν)`. -/
noncomputable def v_t_at (elem : CelestialBody) (t : ℚ) : ℝ :=
  Real.sqrt (mu / (elem.a : ℝ)) * (1 + (elem.e : ℝ) * Real.cos (nu_at elem t))

/-- One appended planet sample: on a failed `math.isfinite` guard the
source zeroes `x, y_inclined, z_inclined` only and appends the velocity
as computed. -/
noncomputable def planet_state (isFin : ℝ → Bool) (elem : CelestialBody)
    (t : ℚ) : StateVector :=
  if isFin (x_at elem t) && isFin (y_inclined_at elem t) &&
      isFin (z_inclined_at elem t) then
    { t := Timestamp.iso t
      r := (x_at elem t, y_inclined_at elem t, z_inclined_at elem t)
      v := (v_r_at elem t, v_t_at elem t, 0) }
  else
    { t := Timestamp.iso t
      r := (0, 0, 0)
      v := (v_r_at elem t, v_t_at elem t, 0) }

/-- The planet sampling loop (one sample per instant). -/
noncomputable def planet_loop (isFin : ℝ → Bool) (elem : CelestialBody)
    (stop_t Δ : ℚ) : ℚ → ℕ → List StateVector
  | _, 0 => []
  | cur, fuel + 1 =>
    if cur ≤ stop_t then
      planet_state isFin elem cur :: planet_loop isFin elem stop_t Δ (cur + Δ) fuel
    else []

/-- The `except` fallback of `generate_orbital_positions`: one sample at
the raw `start` string, `r = [a, 0, 0]`, `v = [0, 0, 0]`. -/
noncomputable def fallback_state (elem : CelestialBody) (start : String) :
    StateVector :=
  { t := Timestamp.raw start, r := ((elem.a : ℝ), 0, 0), v := (0, 0, 0) }

/-- The planet/dwarf-planet/star path of `generate_orbital_positions`
(the `try` block plus its `except` handler).  Any of: unparsable
`start`/`stop`, a step whose `float` fails, or the `period = 0` float
division on the first executed loop iteration, raises inside the `try`
and so yields the single fallback sample. -/
noncomputable def planet_branch (isFin : ℝ → Bool) (elem : CelestialBody)
    (start? stop? : Option ℚ) (start step : String) : List StateVector :=
  match start?, stop?, parseStepHours step with
  | some s₁, some s₂, some Δ =>
    if elem.period = 0 ∧ s₁ ≤ s₂ then [fallback_state elem start]
    else planet_loop isFin elem s₂ Δ s₁ max_positions
  | _, _, _ => [fallback_state elem start]

/-- The moon's Kepler-derived inclined-plane offset relative to its
parent (same pipeline as the planet path). -/
noncomputable def moon_offset (moon_obj : CelestialBody) (t : ℚ) : ℝ × ℝ × ℝ :=
  (x_at moon_obj t, y_inclined_at moon_obj t, z_inclined_at moon_obj t)

/-- The composed moon sample at instant `t` against parent sample `p`:
`final = parent_pos + moon_offset` component-wise, zero velocity. -/
noncomputable def composed_sample (moon_obj : CelestialBody) (p : StateVector)
    (t : ℚ) : StateVector :=
  { t := Timestamp.iso t
    r := (p.r.1 + (moon_offset moon_obj t).1,
          p.r.2.1 + (moon_offset moon_obj t).2.1,
          p.r.2.2 + (moon_offset moon_obj t).2.2)
    v := (0, 0, 0) }

/-- The moon sampling loop: at each instant, linear scan of the parent
series for the first exactly matching timestamp; on a match, append
parent position + offset with zero velocity; otherwise append nothing. -/
noncomputable def moon_loop (moon_obj : CelestialBody)
    (parent_positions : List StateVector) (stop_t Δ : ℚ) :
    ℚ → ℕ → List StateVector
  | _, 0 => []
  | cur, fuel + 1 =>
    if cur ≤ stop_t then
      match parent_positions.find? (fun p => decide (p.t = Timestamp.iso cur)) with
      | some p =>
        composed_sample moon_obj p cur ::
          moon_loop moon_obj parent_positions stop_t Δ (cur + Δ) fuel
      | none => moon_loop moon_obj parent_positions stop_t Δ (cur + Δ) fuel
    else []

/-- `generate_moon_positions`: its own `try/except` returns `[]` on any
raised error (unparsable window, failing step `float`, or a `period = 0`
division on the first executed iteration). -/
noncomputable def generate_moon_positions (moon_obj : CelestialBody)
    (parent_positions : List StateVector) (start? stop? : Option ℚ)
    (step : String) : List StateVector :=
  match start?, stop?, parseStepHours step with
  | some s₁, some s₂, some Δ =>
    if moon_obj.period = 0 ∧ s₁ ≤ s₂ then []
    else moon_loop moon_obj parent_positions s₂ Δ s₁ max_positions
  | _, _, _ => []

/-- `generate_orbital_positions`, fuel-indexed for the parent recursion
(Python's recursion limit plays the role of the fuel; it is never
reached on the shipped registry, whose moons' parents are planets).
The moon dispatch (parent lookup and the `if not parent_positions`
check) sits outside any `try`, so a missing `parent` key would raise
outward (`Except.error`). -/
noncomputable def genAux (reg : List (String × CelestialBody))
    (isFin : ℝ → Bool) :
    ℕ → String → Option ℚ → Option ℚ → String → String →
    Except String (List StateVector)
  | 0, _, _, _, _, _ => .error "RecursionError"
  | fuel + 1, body_id, start?, stop?, start, step =>
    match List.lookup body_id reg with
    | none => .ok []
    | some obj =>
      match obj.btype with
      | BodyType.moon =>
        match obj.parent with
        | none => .error "KeyError"
        | some parent_id =>
          match List.lookup parent_id reg with
          | none => .ok []
          | some _ =>
            match genAux reg isFin fuel parent_id start? stop? start step with
            | .error err => .error err
            | .ok [] => .ok []
            | .ok parent_positions =>
              .ok (generate_moon_positions obj parent_positions start? stop? step)
      | _ => .ok (planet_branch isFin obj start? stop? start step)

/-- Top-level `generate_orbital_positions`. -/
noncomputable def generate_orbital_positions
    (reg : List (String × CelestialBody)) (isFin : ℝ → Bool)
    (body_id : String) (start? stop? : Option ℚ) (start step : String) :
    Except String (List StateVector) :=
  genAux reg isFin 1000 body_id start? stop? start step

/-- Python `s.split(",")` helper. -/
def splitCommaAux : List Char → List Char → List String
  | [], acc => [⟨acc.reverse⟩]
  | c :: rest, acc =>
    if c = ',' then ⟨acc.reverse⟩ :: splitCommaAux rest []
    else splitCommaAux rest (c :: acc)

/-- Python `s.split(",")`. -/
def pySplitComma (s : String) : List String := splitCommaAux s.data []

/-- `[s.strip() for s in horizons_ids.split(",") if s.strip()]`. -/
def parse_ids (horizons_ids : String) : List String :=
  ((pySplitComma horizons_ids).map pyStrip).filter (fun s => !s.isEmpty)

/-- `if "10" not in ids: ids = ["10", *ids]`. -/
def ensure_sun (ids : List String) : List String :=
  if "10" ∈ ids then ids else "10" :: ids

/-- The moon expansion of `/api/ephem`: moons of each requested planet
(`type == 'planet'` only) are appended after all requested ids. -/
def expand_ids (reg : List (String × CelestialBody)) (ids : List String)
    (include_moons : Bool) : List String :=
  if include_moons then
    ids ++ ids.flatMap (fun obj_id =>
      match List.lookup obj_id reg with
      | some obj => if obj.btype = BodyType.planet then obj.moons else []
      | none => [])
  else ids

/-- The full id list the `/api/ephem` handler iterates over. -/
def ephem_ids (reg : List (String × CelestialBody)) (horizons_ids : String)
    (include_moons : Bool) : List String :=
  expand_ids reg (ensure_sun (parse_ids horizons_ids)) include_moons

/-- One entry of the `/api/ephem` response. -/
structure EphemResult where
  id : String
  center : String
  states : List StateVector

/-- The `/api/ephem` response list: one entry per expanded id, in order;
both the fetch path and the fallback path tag the entry with that id, so
the per-id states are abstracted as `fetchStates`. -/
def ephem_out (reg : List (String × CelestialBody))
    (fetchStates : String → List StateVector) (horizons_ids center : String)
    (include_moons : Bool) : List EphemResult :=
  (ephem_ids reg horizons_ids include_moons).map
    (fun hid => { id := hid, center := center, states := fetchStates hid })

/-- A registry moon is well-parented: its `parent` field is present, and
a found parent is not itself a moon. -/
def moon_parent_ok (reg : List (String × CelestialBody))
    (b : CelestialBody) : Bool :=
  match b.parent with
  | none => false
  | some pid =>
    match List.lookup pid reg with
    | none => true
    | some pe => decide (pe.btype ≠ BodyType.moon)

/-- Every moon of the registry is well-parented. -/
def registry_ok (reg : List (String × CelestialBody)) : Bool :=
  reg.all fun p => decide (p.2.btype ≠ BodyType.moon) || moon_parent_ok reg p.2

/-- The real `math.isfinite` on the real-number model: every real is
finite. -/
def trueFin : ℝ → Bool := fun _ => true

/-- A guard instantiation under which every finiteness check fails;
used to exhibit the substitution behaviour of the failed-guard branch. -/
def falseFin : ℝ → Bool := fun _ => false

/-! ## Loop characterizations -/

theorem instantsAux_nil {stop_t Δ cur : ℚ} (h : ¬ cur ≤ stop_t) :
    ∀ fuel, instantsAux stop_t Δ cur fuel = [] := by
  intro fuel
  cases fuel with
  | zero => rfl
  | succ n => simp [instantsAux, h]

theorem planet_loop_eq_map (isFin : ℝ → Bool) (elem : CelestialBody)
    (stop_t Δ : ℚ) :
    ∀ fuel cur, planet_loop isFin elem stop_t Δ cur fuel =
      (instantsAux stop_t Δ cur fuel).map (planet_state isFin elem) := by
  intro fuel
  induction fuel with
  | zero => intro cur; rfl
  | succ n ih =>
    intro cur
    by_cases h : cur ≤ stop_t
    · simp [planet_loop, instantsAux, h, ih]
    · simp [planet_loop, instantsAux, h]

theorem moon_loop_eq_filterMap (moon_obj : CelestialBody)
    (parent_positions : List StateVector) (stop_t Δ : ℚ) :
    ∀ fuel cur, moon_loop moon_obj parent_positions stop_t Δ cur fuel =
      (instantsAux stop_t Δ cur fuel).filterMap (fun t =>
        (parent_positions.find? (fun p => decide (p.t = Timestamp.iso t))).map
          (fun p => composed_sample moon_obj p t)) := by
  intro fuel
  induction fuel with
  | zero => intro cur; rfl
  | succ n ih =>
    intro cur
    by_cases h : cur ≤ stop_t
    · cases hf : parent_positions.find? (fun p => decide (p.t = Timestamp.iso cur)) with
      | none => simp [moon_loop, instantsAux, h, hf, ih]
      | some p => simp [moon_loop, instantsAux, h, hf, ih]
    · simp [moon_loop, instantsAux, h]

theorem instantsAux_length_pos_step {Δ : ℚ} (stop_t : ℚ) (hΔ : 0 < Δ) :
    ∀ fuel cur, cur ≤ stop_t →
      (instantsAux stop_t Δ cur fuel).length =
        min fuel (Int.toNat ⌊(stop_t - cur) / Δ⌋ + 1) := by
  intro fuel
  induction fuel with
  | zero => intro cur _; simp [instantsAux]
  | succ n ih =>
    intro cur hcur
    have hfloor0 : 0 ≤ ⌊(stop_t - cur) / Δ⌋ := by
      apply Int.floor_nonneg.mpr
      exact div_nonneg (by linarith) hΔ.le
    by_cases h2 : cur + Δ ≤ stop_t
    · have hstep : (stop_t - (cur + Δ)) / Δ = (stop_t - cur) / Δ - 1 := by
        field_simp
        ring
      have hfloor : ⌊(stop_t - (cur + Δ)) / Δ⌋ = ⌊(stop_t - cur) / Δ⌋ - 1 := by
        rw [hstep, Int.floor_sub_one]
      have hge1 : 1 ≤ ⌊(stop_t - cur) / Δ⌋ := by
        apply Int.le_floor.mpr
        rw [le_div_iff₀ hΔ]
        push_cast
        linarith
      have := ih (cur + Δ) h2
      simp only [instantsAux, hcur, if_pos, List.length_cons, this, hfloor]
      omega
    · have hlt : (stop_t - cur) / Δ < 1 := by
        rw [div_lt_one hΔ]
        linarith
      have hfl : ⌊(stop_t - cur) / Δ⌋ = 0 := by
        apply le_antisymm
        · exact Int.lt_add_one_iff.mp (by exact_mod_cast Int.floor_lt.mpr (by simpa using hlt))
        · exact hfloor0
      rw [instantsAux, if_pos hcur, instantsAux_nil (by simpa using h2)]
      simp [hfl]

theorem planet_branch_noparse (isFin : ℝ → Bool) (elem : CelestialBody)
    {start? stop? : Option ℚ} (start step : String)
    (h : start? = none ∨ stop? = none) :
    planet_branch isFin elem start? stop? start step =
      [fallback_state elem start] := by
  rcases h with h | h
  · subst h
    rfl
  · subst h
    cases start? <;> rfl

theorem planet_branch_badstep (isFin : ℝ → Bool) (elem : CelestialBody)
    (start? stop? : Option ℚ) (start : String) {step : String}
    (h : parseStepHours step = none) :
    planet_branch isFin elem start? stop? start step =
      [fallback_state elem start] := by
  cases start? with
  | none => rfl
  | some s₁ =>
    cases stop? with
    | none => rfl
    | some s₂ => simp [planet_branch, h]

theorem planet_branch_run (isFin : ℝ → Bool) (elem : CelestialBody)
    {s₁ s₂ : ℚ} (start : String) {step : String} {Δ : ℚ}
    (hΔ : parseStepHours step = some Δ)
    (h : ¬ (elem.period = 0 ∧ s₁ ≤ s₂)) :
    planet_branch isFin elem (some s₁) (some s₂) start step =
      planet_loop isFin elem s₂ Δ s₁ max_positions := by
  simp [planet_branch, hΔ, h]

theorem planet_branch_div0 (isFin : ℝ → Bool) (elem : CelestialBody)
    {s₁ s₂ : ℚ} (start : String) {step : String} {Δ : ℚ}
    (hΔ : parseStepHours step = some Δ)
    (hp : elem.period = 0) (hle : s₁ ≤ s₂) :
    planet_branch isFin elem (some s₁) (some s₂) start step =
      [fallback_state elem start] := by
  simp [planet_branch, hΔ, hp, hle]

theorem planet_branch_gt (isFin : ℝ → Bool) (elem : CelestialBody)
    {s₁ s₂ : ℚ} (start : String) {step : String} {Δ : ℚ}
    (hΔ : parseStepHours step = some Δ) (hlt : s₂ < s₁) :
    planet_branch isFin elem (some s₁) (some s₂) start step = [] := by
  have hnle : ¬ s₁ ≤ s₂ := not_le.mpr hlt
  rw [planet_branch_run isFin elem start hΔ (by tauto)]
  rw [planet_loop_eq_map, instantsAux_nil hnle]
  rfl

theorem generate_moon_positions_noparse (moon_obj : CelestialBody)
    (parent_positions : List StateVector) {start? stop? : Option ℚ}
    (step : String) (h : start? = none ∨ stop? = none) :
    generate_moon_positions moon_obj parent_positions start? stop? step = [] := by
  rcases h with h | h
  · subst h
    rfl
  · subst h
    cases start? <;> rfl

theorem generate_moon_positions_run (moon_obj : CelestialBody)
    (parent_positions : List StateVector) {s₁ s₂ : ℚ} {step : String} {Δ : ℚ}
    (hΔ : parseStepHours step = some Δ)
    (h : ¬ (moon_obj.period = 0 ∧ s₁ ≤ s₂)) :
    generate_moon_positions moon_obj parent_positions (some s₁) (some s₂) step =
      moon_loop moon_obj parent_positions s₂ Δ s₁ max_positions := by
  simp [generate_moon_positions, hΔ, h]

/-! ## Unfolding lemmas for `generate_orbital_positions` -/

theorem genAux_unknown {reg : List (String × CelestialBody)}
    (isFin : ℝ → Bool) (n : ℕ) {body_id : String}
    (start? stop? : Option ℚ) (start step : String)
    (h : List.lookup body_id reg = none) :
    genAux reg isFin (n + 1) body_id start? stop? start step = .ok [] := by
  simp [genAux, h]

theorem genAux_nonmoon {reg : List (String × CelestialBody)}
    (isFin : ℝ → Bool) (n : ℕ) {body_id : String} {obj : CelestialBody}
    (start? stop? : Option ℚ) (start step : String)
    (h : List.lookup body_id reg = some obj)
    (hb : obj.btype ≠ BodyType.moon) :
    genAux reg isFin (n + 1) body_id start? stop? start step =
      .ok (planet_branch isFin obj start? stop? start step) := by
  cases hbt : obj.btype
  case moon => exact absurd hbt hb
  all_goals simp [genAux, h, hbt]

theorem gen_unknown {reg : List (String × CelestialBody)}
    (isFin : ℝ → Bool) {body_id : String}
    (start? stop? : Option ℚ) (start step : String)
    (h : List.lookup body_id reg = none) :
    generate_orbital_positions reg isFin body_id start? stop? start step = .ok [] :=
  genAux_unknown isFin 999 start? stop? start step h

theorem gen_nonmoon {reg : List (String × CelestialBody)}
    (isFin : ℝ → Bool) {body_id : String} {obj : CelestialBody}
    (start? stop? : Option ℚ) (start step : String)
    (h : List.lookup body_id reg = some obj)
    (hb : obj.btype ≠ BodyType.moon) :
    generate_orbital_positions reg isFin body_id start? stop? start step =
      .ok (planet_branch isFin obj start? stop? start step) :=
  genAux_nonmoon isFin 999 start? stop? start step h hb

theorem gen_moon_parent_missing {reg : List (String × CelestialBody)}
    (isFin : ℝ → Bool) {body_id : String} {obj : CelestialBody}
    (start? stop? : Option ℚ) (start step : String) {parent_id : String}
    (h : List.lookup body_id reg = some obj)
    (hb : obj.btype = BodyType.moon)
    (hp : obj.parent = some parent_id)
    (hpe : List.lookup parent_id reg = none) :
    generate_orbital_positions reg isFin body_id start? stop? start step = .ok [] := by
  show genAux reg isFin (999 + 1) body_id start? stop? start step = .ok []
  simp [genAux, h, hb, hp, hpe]

theorem gen_moon_parent_empty {reg : List (String × CelestialBody)}
    (isFin : ℝ → Bool) {body_id : String} {obj pe : CelestialBody}
    (start? stop? : Option ℚ) (start step : String) {parent_id : String}
    (h : List.lookup body_id reg = some obj)
    (hb : obj.btype = BodyType.moon)
    (hp : obj.parent = some parent_id)
    (hpe : List.lookup parent_id reg = some pe)
    (hpb : pe.btype ≠ BodyType.moon)
    (hpp : planet_branch isFin pe start? stop? start step = []) :
    generate_orbital_positions reg isFin body_id start? stop? start step = .ok [] := by
  show genAux reg isFin (999 + 1) body_id start? stop? start step = .ok []
  have hrec := genAux_nonmoon isFin 998 start? stop? start step hpe hpb
  simp [genAux, h, hb, hp, hpe, hrec, hpp]

theorem gen_moon_parent_cons {reg : List (String × CelestialBody)}
    (isFin : ℝ → Bool) {body_id : String} {obj pe : CelestialBody}
    (start? stop? : Option ℚ) (start step : String) {parent_id : String}
    {p : StateVector} {ps : List StateVector}
    (h : List.lookup body_id reg = some obj)
    (hb : obj.btype = BodyType.moon)
    (hp : obj.parent = some parent_id)
    (hpe : List.lookup parent_id reg = some pe)
    (hpb : pe.btype ≠ BodyType.moon)
    (hpp : planet_branch isFin pe start? stop? start step = p :: ps) :
    generate_orbital_positions reg isFin body_id start? stop? start step =
      .ok (generate_moon_positions obj (p :: ps) start? stop? step) := by
  show genAux reg isFin (999 + 1) body_id start? stop? start step = _
  have hrec := genAux_nonmoon isFin 998 start? stop? start step hpe hpb
  simp [genAux, h, hb, hp, hpe, hrec, hpp]

theorem lookup_mem {α β : Type} [BEq α] [LawfulBEq α] {a : α} {b : β} :
    ∀ {l : List (α × β)}, List.lookup a l = some b → (a, b) ∈ l := by
  intro l
  induction l with
  | nil => intro h; simp [List.lookup] at h
  | cons p rest ih =>
    rcases p with ⟨k, v⟩
    intro h
    by_cases hka : a == k
    · have hk : a = k := eq_of_beq hka
      simp only [List.lookup, hka] at h
      subst hk
      cases h
      exact List.mem_cons_self _ _
    · have hka2 : (a == k) = false := by simpa using hka
      simp only [List.lookup, hka2] at h
      exact List.mem_cons_of_mem _ (ih h)

/-! ## Registry facts -/

theorem solsys_registry_ok : registry_ok CELESTIAL_OBJECTS = true := by decide

theorem moon_parent_facts {reg : List (String × CelestialBody)}
    (hreg : registry_ok reg = true) {body_id : String} {obj : CelestialBody}
    (h : List.lookup body_id reg = some obj)
    (hb : obj.btype = BodyType.moon) :
    ∃ pid, obj.parent = some pid ∧
      (List.lookup pid reg = none ∨
        ∃ pe, List.lookup pid reg = some pe ∧ pe.btype ≠ BodyType.moon) := by
  have hmem := lookup_mem h
  have hall := List.all_eq_true.mp hreg _ hmem
  rw [Bool.or_eq_true] at hall
  rcases hall with hall | hall
  · exact absurd hb (by simpa using hall)
  · cases hp : obj.parent with
    | none => simp [moon_parent_ok, hp] at hall
    | some pid =>
      refine ⟨pid, rfl, ?_⟩
      cases hpe : List.lookup pid reg with
      | none => exact Or.inl rfl
      | some pe =>
        refine Or.inr ⟨pe, rfl, ?_⟩
        simp [moon_parent_ok, hp, hpe] at hall
        exact hall

/-! ## Kepler and `atan2` facts -/

theorem kepler_iterate_e_zero (M : ℝ) : ∀ n, kepler_iterate M 0 n = M := by
  intro n
  induction n with
  | zero => rfl
  | succ k ih => simp [kepler_iterate, ih]

theorem kepler_iterate_M_zero (e : ℝ) : ∀ n, kepler_iterate 0 e n = 0 := by
  intro n
  induction n with
  | zero => rfl
  | succ k ih => simp [kepler_iterate, ih]

theorem atan2_cos_sin {θ : ℝ} (h : θ ∈ Set.Ioc (-Real.pi) Real.pi) :
    atan2 (Real.sin θ) (Real.cos θ) = θ := by
  unfold atan2
  have hc : (⟨Real.cos θ, Real.sin θ⟩ : ℂ) =
      Complex.cos θ + Complex.sin θ * Complex.I := by
    apply Complex.ext <;>
      simp [Complex.cos_ofReal_re, Complex.sin_ofReal_re,
        Complex.cos_ofReal_im, Complex.sin_ofReal_im]
  rw [hc]
  exact Complex.arg_cos_add_sin_mul_I h

theorem atan2_zero_of_nonneg {x : ℝ} (hx : 0 ≤ x) : atan2 0 x = 0 := by
  unfold atan2
  have hc : (⟨x, 0⟩ : ℂ) = (x : ℂ) := by apply Complex.ext <;> simp
  rw [hc]
  exact Complex.arg_ofReal_of_nonneg hx

theorem atan2_neg_one_zero : atan2 (-1) 0 = -(Real.pi / 2) := by
  unfold atan2
  have hc : (⟨0, -1⟩ : ℂ) = -Complex.I := by apply Complex.ext <;> simp
  rw [hc]
  exact Complex.arg_neg_I

/-! ## Step congruence: the generators read `step` only through
`parseStepHours` -/

theorem planet_branch_step_congr (isFin : ℝ → Bool) (elem : CelestialBody)
    (start? stop? : Option ℚ) (start : String) {step₁ step₂ : String}
    (hs : parseStepHours step₁ = parseStepHours step₂) :
    planet_branch isFin elem start? stop? start step₁ =
      planet_branch isFin elem start? stop? start step₂ := by
  unfold planet_branch
  rw [hs]

theorem generate_moon_positions_step_congr (moon_obj : CelestialBody)
    (parent_positions : List StateVector) (start? stop? : Option ℚ)
    {step₁ step₂ : String}
    (hs : parseStepHours step₁ = parseStepHours step₂) :
    generate_moon_positions moon_obj parent_positions start? stop? step₁ =
      generate_moon_positions moon_obj parent_positions start? stop? step₂ := by
  unfold generate_moon_positions
  rw [hs]

theorem genAux_step_congr {reg : List (String × CelestialBody)}
    (isFin : ℝ → Bool) {step₁ step₂ : String}
    (hs : parseStepHours step₁ = parseStepHours step₂) :
    ∀ fuel body_id start? stop? start,
      genAux reg isFin fuel body_id start? stop? start step₁ =
        genAux reg isFin fuel body_id start? stop? start step₂ := by
  intro fuel
  induction fuel with
  | zero => intro _ _ _ _; rfl
  | succ n ih =>
    intro body_id start? stop? start
    simp only [genAux]
    cases List.lookup body_id reg with
    | none => rfl
    | some obj =>
      cases hbt : obj.btype with
      | moon =>
        simp only [hbt]
        cases hp : obj.parent with
        | none => simp only [hp]
        | some pid =>
          simp only [hp]
          cases hpe : List.lookup pid reg with
          | none => simp only [hpe]
          | some pe =>
            simp only [hpe, ih pid start? stop? start]
            cases genAux reg isFin n pid start? stop? start step₂ with
            | error err => rfl
            | ok ps =>
              cases ps with
              | nil => rfl
              | cons p rest =>
                simp only [generate_moon_positions_step_congr obj _ start? stop? hs]
      | star =>
        simp only [hbt]
        exact congrArg _ (planet_branch_step_congr isFin obj start? stop? start hs)
      | planet =>
        simp only [hbt]
        exact congrArg _ (planet_branch_step_congr isFin obj start? stop? start hs)
      | dwarf_planet =>
        simp only [hbt]
        exact congrArg _ (planet_branch_step_congr isFin obj start? stop? start hs)

/-! ## Claim C1: moon composition -/

/-- C1: the composed moon series consists of exactly those sample
instants of the moon's own window whose timestamp exactly equals some
parent sample's timestamp (first match of the linear scan); each such
sample's position is the parent's position plus the moon's
Kepler-derived inclined-plane offset at that instant, component-wise
(`composed_sample`), and instants with no matching parent timestamp are
dropped, not synthesized. -/
theorem moon_composition_characterization (moon_obj : CelestialBody)
    (parent_positions : List StateVector) (s₁ s₂ : ℚ) {step : String} {Δ : ℚ}
    (hΔ : parseStepHours step = some Δ) (hper : moon_obj.period ≠ 0) :
    generate_moon_positions moon_obj parent_positions (some s₁) (some s₂) step =
      (instants s₁ s₂ Δ).filterMap (fun t =>
        (parent_positions.find? (fun p => decide (p.t = Timestamp.iso t))).map
          (fun p => composed_sample moon_obj p t)) := by
  rw [generate_moon_positions_run moon_obj parent_positions hΔ (by tauto)]
  exact moon_loop_eq_filterMap _ _ _ _ _ _

/-- Witness for C1 at the Moon ("301"), an empty parent series and the
window 0..24 h with step "6h". -/
theorem moon_composition_witness :
    parseStepHours "6h" = some 6 ∧ moonBody.period ≠ 0 ∧
      generate_moon_positions moonBody [] (some 0) (some 24) "6h" =
        (instants 0 24 6).filterMap (fun t =>
          (([] : List StateVector).find?
            (fun p => decide (p.t = Timestamp.iso t))).map
            (fun p => composed_sample moonBody p t)) :=
  ⟨by decide, by norm_num [moonBody],
    moon_composition_characterization moonBody [] 0 24 (by decide)
      (by norm_num [moonBody])⟩

/-! ## Claim C2: the Kepler solving step at e = 0 -/

/-- C2 counterexample: at `M = 3π` (a legal input, since the caller does
not pre-normalize), the solved true anomaly is not `M`: `atan2` folds
the angle into `(-π, π]`, so `ν = -π ≠ 3π`. -/
theorem true_anomaly_cex :
    true_anomaly (3 * Real.pi) 0 ≠ 3 * Real.pi := by
  have hE : eccentric_anomaly (3 * Real.pi) 0 = 3 * Real.pi :=
    kepler_iterate_e_zero _ 5
  have hhalf : (3 : ℝ) * Real.pi / 2 = Real.pi + Real.pi / 2 := by ring
  have hsin : Real.sin (3 * Real.pi / 2) = -1 := by
    rw [hhalf, Real.sin_add]
    simp
  have hcos : Real.cos (3 * Real.pi / 2) = 0 := by
    rw [hhalf, Real.cos_add]
    simp
  have hval : true_anomaly (3 * Real.pi) 0 = -Real.pi := by
    unfold true_anomaly true_anomaly_from
    rw [hE]
    rw [show ((1 : ℝ) + 0) = 1 by ring, show ((1 : ℝ) - 0) = 1 by ring,
      Real.sqrt_one, one_mul, one_mul, hsin, hcos, atan2_neg_one_zero]
    ring
  rw [hval]
  have hpi := Real.pi_pos
  intro hcontra
  linarith

/-- C2 (amended): for `e = 0` the Kepler step returns `E = M` exactly and
`r = a` for every real `M`, with no restriction; the true anomaly equals
`M` exactly whenever `M ∈ (-2π, 2π]` (in general `atan2` returns it only
up to a multiple of `2π`). -/
theorem kepler_circular_orbit (M a : ℝ) :
    eccentric_anomaly M 0 = M ∧ radius_from a 0 (eccentric_anomaly M 0) = a ∧
      (M ∈ Set.Ioc (-(2 * Real.pi)) (2 * Real.pi) → true_anomaly M 0 = M) := by
  have hE : eccentric_anomaly M 0 = M := kepler_iterate_e_zero _ 5
  refine ⟨hE, ?_, ?_⟩
  · unfold radius_from
    ring
  · intro h
    unfold true_anomaly true_anomaly_from
    rw [hE]
    rw [show ((1 : ℝ) + 0) = 1 by ring, show ((1 : ℝ) - 0) = 1 by ring,
      Real.sqrt_one, one_mul, one_mul]
    rw [atan2_cos_sin ⟨by linarith [h.1], by linarith [h.2]⟩]
    ring

/-- Witness for C2 (amended) at `M = 0`, `a = 5`, discharging the inner
interval hypothesis of the true-anomaly conjunct. -/
theorem kepler_circular_orbit_witness :
    eccentric_anomaly 0 0 = 0 ∧ radius_from 5 0 (eccentric_anomaly 0 0) = 5 ∧
      ((0 : ℝ) ∈ Set.Ioc (-(2 * Real.pi)) (2 * Real.pi) ∧
        true_anomaly 0 0 = 0) := by
  have h2pi : (0 : ℝ) < 2 * Real.pi := by positivity
  have hmem : (0 : ℝ) ∈ Set.Ioc (-(2 * Real.pi)) (2 * Real.pi) :=
    ⟨by linarith, by linarith⟩
  obtain ⟨h1, h2, h3⟩ := kepler_circular_orbit 0 5
  exact ⟨h1, h2, hmem, h3 hmem⟩

/-! ## Claim C3: series length -/

/-- C4 counterexample: Earth with parseable start 1 > stop 0 but step
string "xh": `float("x")` raises before the loop, so the result is the
single fallback sample, not the empty series the claim requires for
every known body and parseable start > stop. -/
theorem empty_window_cex :
    generate_orbital_positions CELESTIAL_OBJECTS trueFin "399" (some 1) (some 0)
        "w" "xh" = .ok [fallback_state earth "w"] ∧
      generate_orbital_positions CELESTIAL_OBJECTS trueFin "399" (some 1) (some 0)
        "w" "xh" ≠ .ok [] := by
  have h : generate_orbital_positions CELESTIAL_OBJECTS trueFin "399" (some 1)
      (some 0) "w" "xh" = .ok [fallback_state earth "w"] := by
    rw [gen_nonmoon trueFin (some 1) (some 0) "w" "xh"
      (show List.lookup "399" CELESTIAL_OBJECTS = some earth from rfl) (by decide)]
    rw [planet_branch_badstep trueFin earth (some 1) (some 0) "w" (by decide)]
  refine ⟨h, ?_⟩
  rw [h]
  intro hc
  injection hc with hl
  simp at hl

/-- C4 (amended): for every registered body, parseable start > stop and
a step string whose parse succeeds, the generator returns the empty
series — not an error and not a fallback sample (a moon's parent series
is already empty, so the moon yields the empty series too). -/
theorem empty_window (isFin : ℝ → Bool) {body_id : String}
    {elem : CelestialBody} {s₁ s₂ : ℚ} (start : String) {step : String} {Δ : ℚ}
    (h : List.lookup body_id CELESTIAL_OBJECTS = some elem)
    (hΔ : parseStepHours step = some Δ) (hlt : s₂ < s₁) :
    generate_orbital_positions CELESTIAL_OBJECTS isFin body_id
      (some s₁) (some s₂) start step = .ok [] := by
  by_cases hb : elem.btype = BodyType.moon
  · obtain ⟨pid, hp, hrest⟩ := moon_parent_facts solsys_registry_ok h hb
    rcases hrest with hpe | ⟨pe, hpe, hpb⟩
    · exact gen_moon_parent_missing isFin (some s₁) (some s₂) start step h hb hp hpe
    · exact gen_moon_parent_empty isFin (some s₁) (some s₂) start step h hb hp hpe
        hpb (planet_branch_gt isFin pe start hΔ hlt)
  · rw [gen_nonmoon isFin (some s₁) (some s₂) start step h hb]
    rw [planet_branch_gt isFin elem start hΔ hlt]

/-- Witness for C4 (amended) at Earth, start 1 > stop 0, step "6h". -/
theorem empty_window_witness :
    parseStepHours "6h" = some 6 ∧
      generate_orbital_positions CELESTIAL_OBJECTS trueFin "399" (some 1) (some 0)
        "w" "6h" = .ok [] :=
  ⟨by decide, empty_window trueFin "w"
    (show List.lookup "399" CELESTIAL_OBJECTS = some earth from rfl)
    (show parseStepHours "6h" = some 6 by decide) (by norm_num)⟩

/-! ## Claim C5: step parsing default -/

/-- C5 (amended): every step string containing neither 'h' nor 'd'
parses as the 6-hour default, and generation then behaves exactly as
with the literal step "6h", for every registry, body and window — a
normal series, not a parsing failure. (A string that does contain 'h'
or 'd' with a non-numeric residue instead raises inside the try; see the
counterexample.) -/
theorem step_default (step : String) (h1 : ¬ pyContains step 'h')
    (h2 : ¬ pyContains step 'd') :
    parseStepHours step = some 6 ∧
      ∀ (reg : List (String × CelestialBody)) (isFin : ℝ → Bool)
        (body_id : String) (start? stop? : Option ℚ) (start : String),
        generate_orbital_positions reg isFin body_id start? stop? start step =
          generate_orbital_positions reg isFin body_id start? stop? start "6h" := by
  have hp : parseStepHours step = some 6 := by
    unfold parseStepHours
    rw [if_neg h1, if_neg h2]
  refine ⟨hp, fun reg isFin body_id start? stop? start => ?_⟩
  exact genAux_step_congr isFin (by rw [hp]; decide) 1000 body_id start? stop? start

/-- Witness for C5 (amended) at step "30m" (no 'h', no 'd'). -/
theorem step_default_witness :
    (¬ pyContains "30m" 'h') ∧ parseStepHours "30m" = some 6 ∧
      generate_orbital_positions CELESTIAL_OBJECTS trueFin "399" (some 0) (some 24)
          "w" "30m" =
        generate_orbital_positions CELESTIAL_OBJECTS trueFin "399" (some 0)
          (some 24) "w" "6h" :=
  ⟨by decide, (step_default "30m" (by decide) (by decide)).1,
    (step_default "30m" (by decide) (by decide)).2 CELESTIAL_OBJECTS trueFin "399"
      (some 0) (some 24) "w"⟩

/-- C5 counterexample: "xh" is not of the form "<number>h" or
"<number>d", yet it does not default to 6 hours: it contains 'h', so the
code attempts float("x"), which raises — the result is the single
degenerate fallback sample, while the true 6-hour-default series over
the same 0..24 h window would have 5 samples. -/
theorem step_default_cex :
    parseStepHours "xh" = none ∧
      generate_orbital_positions CELESTIAL_OBJECTS trueFin "399" (some 0) (some 24)
        "w" "xh" = .ok [fallback_state earth "w"] ∧
      (generate_orbital_positions CELESTIAL_OBJECTS trueFin "399" (some 0) (some 24)
        "w" "6h").map List.length = .ok 5 := by
  refine ⟨by decide, ?_, ?_⟩
  · rw [gen_nonmoon trueFin (some 0) (some 24) "w" "xh"
      (show List.lookup "399" CELESTIAL_OBJECTS = some earth from rfl) (by decide)]
    rw [planet_branch_badstep trueFin earth (some 0) (some 24) "w" (by decide)]
  · rw [gen_nonmoon trueFin (some 0) (some 24) "w" "6h"
      (show List.lookup "399" CELESTIAL_OBJECTS = some earth from rfl) (by decide)]
    have hpb : planet_branch trueFin earth (some 0) (some 24) "w" "6h" =
        planet_loop trueFin earth 24 6 0 max_positions :=
      planet_branch_run trueFin earth "w" (by decide) (by norm_num [earth])
    have hlen : (planet_loop trueFin earth 24 6 0 max_positions).length = 5 := by
      rw [planet_loop_eq_map, List.length_map]
      rw [instantsAux_length_pos_step 24 (by norm_num) max_positions 0 (by norm_num)]
      have hfl : ⌊((24 : ℚ) - 0) / 6⌋ = 4 := by norm_num
      rw [hfl]
      decide
    rw [hpb]
    simp [Except.map, hlen]

/-! ## Claim C6: unparsable time window -/

/-- C6 counterexample: the Moon ("301") with an unparsable start yields
the empty series — the moon composer's own try/except returns [] — not
the single fallback sample the claim requires for every registered
body. -/
theorem unparsable_window_cex :
    generate_orbital_positions CELESTIAL_OBJECTS trueFin "301" none (some 0)
        "bad" "6h" = .ok [] ∧
      generate_orbital_positions CELESTIAL_OBJECTS trueFin "301" none (some 0)
        "bad" "6h" ≠ .ok [fallback_state moonBody "bad"] := by
  have h : generate_orbital_positions CELESTIAL_OBJECTS trueFin "301" none (some 0)
      "bad" "6h" = .ok [] := by
    have hpp : planet_branch trueFin earth none (some 0) "bad" "6h" =
        fallback_state earth "bad" :: [] :=
      planet_branch_noparse trueFin earth "bad" "6h" (Or.inl rfl)
    rw [gen_moon_parent_cons trueFin none (some 0) "bad" "6h"
      (show List.lookup "301" CELESTIAL_OBJECTS = some moonBody from rfl) rfl rfl
      (show List.lookup "399" CELESTIAL_OBJECTS = some earth from rfl)
      (by decide) hpp]
    rw [generate_moon_positions_noparse moonBody _ "6h" (Or.inl rfl)]
  refine ⟨h, ?_⟩
  rw [h]
  intro hc
  injection hc with hl
  simp at hl

/-- C6 (amended): when start or stop is unparsable, a registered
non-moon body yields exactly one fallback sample whose timestamp is the
raw start string, position `[a, 0, 0]` and zero velocity, while a
registered moon yields the empty series instead (its composer's own
try/except returns []). -/
theorem unparsable_window_fallback (isFin : ℝ → Bool) {body_id : String}
    {elem : CelestialBody} {start? stop? : Option ℚ} (start step : String)
    (h : List.lookup body_id CELESTIAL_OBJECTS = some elem)
    (hns : start? = none ∨ stop? = none) :
    (elem.btype ≠ BodyType.moon →
      generate_orbital_positions CELESTIAL_OBJECTS isFin body_id start? stop?
        start step = .ok [fallback_state elem start]) ∧
    (elem.btype = BodyType.moon →
      generate_orbital_positions CELESTIAL_OBJECTS isFin body_id start? stop?
        start step = .ok []) := by
  constructor
  · intro hb
    rw [gen_nonmoon isFin start? stop? start step h hb]
    rw [planet_branch_noparse isFin elem start step hns]
  · intro hb
    obtain ⟨pid, hp, hrest⟩ := moon_parent_facts solsys_registry_ok h hb
    rcases hrest with hpe | ⟨pe, hpe, hpb⟩
    · exact gen_moon_parent_missing isFin start? stop? start step h hb hp hpe
    · have hpp : planet_branch isFin pe start? stop? start step =
          fallback_state pe start :: [] :=
        planet_branch_noparse isFin pe start step hns
      rw [gen_moon_parent_cons isFin start? stop? start step h hb hp hpe hpb hpp]
      rw [generate_moon_positions_noparse elem _ step hns]

/-- Witness for C6 (amended): Earth with an unparsable start. -/
theorem unparsable_window_witness :
    (earth.btype ≠ BodyType.moon) ∧
      generate_orbital_positions CELESTIAL_OBJECTS trueFin "399" none (some 0)
        "bad" "6h" = .ok [fallback_state earth "bad"] :=
  ⟨by decide,
    (unparsable_window_fallback trueFin "bad" "6h"
      (show List.lookup "399" CELESTIAL_OBJECTS = some earth from rfl)
      (Or.inl rfl)).1 (by decide)⟩

/-! ## Claim C7: the star's zero period -/

/-- C7 counterexample: the Sun ("10", period 0) over the parseable
window 0..24 h with step "24h": the first loop iteration's
`days / period` float division raises ZeroDivisionError, which the
except handler turns into the single fallback sample — not a normal
2-sample per-instant series with M treated as 0. -/
theorem star_period_zero_cex :
    generate_orbital_positions CELESTIAL_OBJECTS trueFin "10" (some 0) (some 24)
        "w" "24h" = .ok [fallback_state sun "w"] ∧
      (generate_orbital_positions CELESTIAL_OBJECTS trueFin "10" (some 0) (some 24)
        "w" "24h").map List.length ≠ .ok 2 := by
  have h : generate_orbital_positions CELESTIAL_OBJECTS trueFin "10" (some 0)
      (some 24) "w" "24h" = .ok [fallback_state sun "w"] := by
    rw [gen_nonmoon trueFin (some 0) (some 24) "w" "24h"
      (show List.lookup "10" CELESTIAL_OBJECTS = some sun from rfl) (by decide)]
    rw [planet_branch_div0 trueFin sun "w"
      (show parseStepHours "24h" = some 24 by decide) (by norm_num [sun])
      (by norm_num)]
  refine ⟨h, ?_⟩
  rw [h]
  intro hc
  simp [Except.map] at hc

/-- C7 (amended): for the star (orbitalPeriodDays = 0) and every
parseable window with start ≤ stop and a step that parses, the internal
division raises and is caught: the result is the single fallback sample
(timestamp = raw start, position `[a, 0, 0]` = `[0, 0, 0]`, zero
velocity) — not a per-instant series with M = 0. -/
theorem star_period_zero_fallback (isFin : ℝ → Bool) (s₁ s₂ : ℚ)
    (start : String) {step : String} {Δ : ℚ}
    (hΔ : parseStepHours step = some Δ) (hle : s₁ ≤ s₂) :
    generate_orbital_positions CELESTIAL_OBJECTS isFin "10" (some s₁) (some s₂)
      start step = .ok [fallback_state sun start] := by
  rw [gen_nonmoon isFin (some s₁) (some s₂) start step
    (show List.lookup "10" CELESTIAL_OBJECTS = some sun from rfl) (by decide)]
  rw [planet_branch_div0 isFin sun start hΔ (by norm_num [sun]) hle]

/-- Witness for C7 (amended) at the window 0..0 with step "6h". -/
theorem star_period_zero_witness :
    parseStepHours "6h" = some 6 ∧ (0 : ℚ) ≤ 0 ∧
      generate_orbital_positions CELESTIAL_OBJECTS trueFin "10" (some 0) (some 0)
        "w" "6h" = .ok [fallback_state sun "w"] :=
  ⟨by decide, le_rfl, star_period_zero_fallback trueFin 0 0 "w"
    (show parseStepHours "6h" = some 6 by decide) le_rfl⟩

/-! ## Claim C8: non-finite substitution -/

/-- C8 counterexample: on a sample whose finiteness guard fails (guard
instantiated as always-false), the emitted state is not
"origin position and zero velocity": the velocity is emitted as
computed, and at Earth's epoch instant its tangential component
`sqrt(mu/a)·(1+e)` is strictly positive. -/
theorem nonfinite_velocity_cex :
    planet_state falseFin earth 0 ≠
      { t := Timestamp.iso 0, r := (0, 0, 0), v := (0, 0, 0) } := by
  have hM : mean_anomaly earth 0 = 0 := by
    unfold mean_anomaly days_since_epoch
    norm_num
  have hE : E_at earth 0 = 0 := by
    unfold E_at eccentric_anomaly
    rw [hM]
    exact kepler_iterate_M_zero _ 5
  have hnu : nu_at earth 0 = 0 := by
    unfold nu_at true_anomaly_from
    rw [hE]
    rw [show (0 : ℝ) / 2 = 0 by norm_num, Real.sin_zero, Real.cos_zero,
      mul_zero, mul_one]
    rw [atan2_zero_of_nonneg (Real.sqrt_nonneg _)]
    ring
  have ha : (0 : ℝ) < (earth.a : ℝ) := by norm_num [earth]
  have hmu : (0 : ℝ) < mu := by norm_num [mu]
  have he : (0 : ℝ) ≤ (earth.e : ℝ) := by norm_num [earth]
  have hvt : 0 < v_t_at earth 0 := by
    unfold v_t_at
    rw [hnu, Real.cos_zero, mul_one]
    have h1 : 0 < mu / (earth.a : ℝ) := div_pos hmu ha
    have h2 : 0 < Real.sqrt (mu / (earth.a : ℝ)) := Real.sqrt_pos.mpr h1
    have h3 : (0 : ℝ) < 1 + (earth.e : ℝ) := by linarith
    exact mul_pos h2 h3
  have h1 : planet_state falseFin earth 0 =
      { t := Timestamp.iso 0, r := (0, 0, 0),
        v := (v_r_at earth 0, v_t_at earth 0, 0) } := by
    simp [planet_state, falseFin]
  intro hcontra
  rw [h1] at hcontra
  simp only [StateVector.mk.injEq, Prod.mk.injEq] at hcontra
  exact absurd hcontra.2.2.2.1 (ne_of_gt hvt)

/-- C8 (amended): whenever the finiteness guard on (x, y', z') fails at
a sample instant, the generator substitutes the origin for that sample's
position only — the velocity is emitted exactly as computed,
`[v_r, v_t, 0]` — and the loop keeps emitting one sample per remaining
instant of the series. -/
theorem nonfinite_substitution (isFin : ℝ → Bool) (elem : CelestialBody)
    (t : ℚ)
    (hguard : (isFin (x_at elem t) && isFin (y_inclined_at elem t) &&
      isFin (z_inclined_at elem t)) = false) :
    planet_state isFin elem t =
      { t := Timestamp.iso t, r := (0, 0, 0),
        v := (v_r_at elem t, v_t_at elem t, 0) } ∧
      ∀ stop_t Δ cur fuel, planet_loop isFin elem stop_t Δ cur fuel =
        (instantsAux stop_t Δ cur fuel).map (planet_state isFin elem) := by
  constructor
  · simp [planet_state, hguard]
  · exact fun stop_t Δ cur fuel => planet_loop_eq_map isFin elem stop_t Δ fuel cur

/-- Witness for C8 (amended) with the always-false guard at Earth's
epoch instant. -/
theorem nonfinite_substitution_witness :
    ((falseFin (x_at earth 0) && falseFin (y_inclined_at earth 0) &&
      falseFin (z_inclined_at earth 0)) = false) ∧
      (planet_state falseFin earth 0 =
        { t := Timestamp.iso 0, r := (0, 0, 0),
          v := (v_r_at earth 0, v_t_at earth 0, 0) } ∧
        ∀ stop_t Δ cur fuel, planet_loop falseFin earth stop_t Δ cur fuel =
          (instantsAux stop_t Δ cur fuel).map (planet_state falseFin earth)) :=
  ⟨rfl, nonfinite_substitution falseFin earth 0 rfl⟩

/-! ## Claim C9: the generator never raises -/

/-- C9: for every body id (registered or not, moons included),
parsed-or-unparsable window and arbitrary step string, the fallback
generation returns an `ok` (possibly empty or degraded) list of state
samples: every internally raised error is absorbed locally, and no
`Except.error` escapes. -/
theorem generation_never_raises (isFin : ℝ → Bool) (body_id : String)
    (start? stop? : Option ℚ) (start step : String) :
    ∃ l, generate_orbital_positions CELESTIAL_OBJECTS isFin body_id start? stop?
      start step = .ok l := by
  cases hl : List.lookup body_id CELESTIAL_OBJECTS with
  | none => exact ⟨[], gen_unknown isFin start? stop? start step hl⟩
  | some obj =>
    by_cases hb : obj.btype = BodyType.moon
    · obtain ⟨pid, hp, hrest⟩ := moon_parent_facts solsys_registry_ok hl hb
      rcases hrest with hpe | ⟨pe, hpe, hpb⟩
      · exact ⟨[],
          gen_moon_parent_missing isFin start? stop? start step hl hb hp hpe⟩
      · cases hpp : planet_branch isFin pe start? stop? start step with
        | nil => exact ⟨[],
            gen_moon_parent_empty isFin start? stop? start step hl hb hp hpe hpb hpp⟩
        | cons p ps => exact ⟨_,
            gen_moon_parent_cons isFin start? stop? start step hl hb hp hpe hpb hpp⟩
    · exact ⟨_, gen_nonmoon isFin start? stop? start step hl hb⟩

/-! ## Claim C10: the Sun is always included -/

/-- C10: for every fetch behaviour, requested-ids string, center and
include-moons flag, the /api/ephem result list contains an entry whose
id is "10" (the Sun); and when "10" is not among the requested ids it is
prepended, so the first result's id is "10" even though the Sun was
never requested. -/
theorem sun_always_included (fetchStates : String → List StateVector)
    (horizons_ids center : String) (include_moons : Bool) :
    (∃ entry ∈ ephem_out CELESTIAL_OBJECTS fetchStates horizons_ids center
        include_moons, entry.id = "10") ∧
      ("10" ∉ parse_ids horizons_ids →
        (ephem_out CELESTIAL_OBJECTS fetchStates horizons_ids center
          include_moons).head?.map EphemResult.id = some "10") := by
  constructor
  · have h10 : "10" ∈ ephem_ids CELESTIAL_OBJECTS horizons_ids include_moons := by
      unfold ephem_ids expand_ids ensure_sun
      by_cases hm : "10" ∈ parse_ids horizons_ids
      · cases include_moons <;> simp [hm]
      · cases include_moons <;> simp [hm]
    exact ⟨_, List.mem_map_of_mem _ h10, rfl⟩
  · intro hnm
    have he : ensure_sun (parse_ids horizons_ids) =
        "10" :: parse_ids horizons_ids := by
      unfold ensure_sun
      rw [if_neg hnm]
    unfold ephem_out ephem_ids expand_ids
    rw [he]
    cases include_moons <;> simp

/-- Witness for C10: ids "399" (the Sun not requested). -/
theorem sun_always_included_witness :
    ("10" ∉ parse_ids "399") ∧
      ((ephem_out CELESTIAL_OBJECTS (fun _ => []) "399" "500@0" true).head?.map
        EphemResult.id = some "10") :=
  ⟨by decide,
    (sun_always_included (fun _ => []) "399" "500@0" true).2 (by decide)⟩
